/-
Verification of the transaction-safety core of the Tec-core-backend
microservices (idempotency gate, rate limiter, payment state machine,
wallet ledger) against its natural-language specification.

The TypeScript sources are shallowly embedded: each middleware or
controller becomes a pure Lean function over explicit state
(association lists standing for the in-memory `Map`s and the database
rows), with `Date.now()` passed in as an explicit `now : Nat`
timestamp in milliseconds.  Sequential (single-process) execution is
modelled; monetary amounts are embedded as rationals.
-/
import Mathlib

/-! ### Association maps

The in-memory stores (`Map<string, …>`) and the database tables keyed
by id are embedded as association lists over `String` keys. -/

/-- Lookup in an association list (`Map.get` / Prisma `findUnique`). -/
def amGet {α : Type} : List (String × α) → String → Option α
  | [], _ => none
  | (k', v) :: rest, k => if k' = k then some v else amGet rest k

/-- Overwriting insert (`Map.set` / Prisma `update`-or-`create`). -/
def amSet {α : Type} : List (String × α) → String → α → List (String × α)
  | [], k, v => [(k, v)]
  | (k', v') :: rest, k, v =>
      if k' = k then (k, v) :: rest else (k', v') :: amSet rest k v

/-- Deletion (`Map.delete`). -/
def amErase {α : Type} : List (String × α) → String → List (String × α)
  | [], _ => []
  | (k', v') :: rest, k =>
      if k' = k then rest else (k', v') :: amErase rest k

theorem amGet_amSet_self {α : Type} (s : List (String × α)) (k : String) (v : α) :
    amGet (amSet s k v) k = some v := by
  induction s with
  | nil => simp [amGet, amSet]
  | cons hd tl ih =>
      obtain ⟨k', v'⟩ := hd
      by_cases h : k' = k
      · simp [amGet, amSet, h]
      · simp [amGet, amSet, h, ih]

theorem amGet_amSet_ne {α : Type} (s : List (String × α)) (k k' : String) (v : α)
    (h : k' ≠ k) : amGet (amSet s k v) k' = amGet s k' := by
  induction s with
  | nil => simp [amGet, amSet, Ne.symm h]
  | cons hd tl ih =>
      obtain ⟨k₀, v₀⟩ := hd
      by_cases h₀ : k₀ = k
      · subst h₀
        simp [amGet, amSet, Ne.symm h]
      · simp only [amSet, if_neg h₀]
        by_cases h₁ : k₀ = k'
        · simp [amGet, h₁]
        · simp [amGet, h₁, ih]

/-! ### Response bodies

Every service responds with the envelope `{success:true, data}` or
`{success:false, error:{code,message}}`; handler payloads are opaque. -/

/-- A JSON response body: a success payload or an error envelope. -/
inductive RespBody where
  | ok (data : String)
  | err (code : String) (message : String)
deriving DecidableEq, Repr

/-- A materialised HTTP response (or a wrapped handler's final
outcome) as captured by the idempotency middleware: status code,
header snapshot at flush time, and body. -/
structure HandlerOut where
  statusCode : Nat
  headers : List (String × String)
  body : RespBody
deriving DecidableEq, Repr

/-! ### Idempotency middleware of the payment service
(`tec-payment-service/src/middlewares/error.middleware.ts`, exported
`idempotency` with its `InMemoryIdempotencyStore`). -/

namespace ErrorMw

/-- Cached entry of `InMemoryIdempotencyStore` (`CachedResponse`). -/
structure CachedResponse where
  statusCode : Nat
  headers : List (String × String)
  body : RespBody
  expiresAt : Nat
deriving DecidableEq, Repr

/-- The in-memory idempotency store: `Map<string, CachedResponse>`. -/
abbrev Store := List (String × CachedResponse)

/-- `InMemoryIdempotencyStore.get`: returns the entry unless it is
absent or expired; an expired entry is deleted.  Returns the possibly
updated store alongside the result. -/
def get (s : Store) (now : Nat) (key : String) : Option CachedResponse × Store :=
  match amGet s key with
  | none => (none, s)
  | some e => if now > e.expiresAt then (none, amErase s key) else (some e, s)

/-- `InMemoryIdempotencyStore.set`: a plain overwriting `Map.set`. -/
def set (s : Store) (key : String) (e : CachedResponse) : Store :=
  amSet s key e

/-- The request header `idempotency-key` as Express delivers it:
absent, a single string, or an array of strings. -/
inductive HeaderVal where
  | absent
  | str (s : String)
  | arr (l : List String)
deriving DecidableEq, Repr

/-- An inbound mutating request as seen by the middleware.  `ip` is
carried to talk about distinct callers; the middleware never reads it. -/
structure IdemRequest where
  key : HeaderVal
  user : Option String
  userId : Option String
  ip : String
deriving DecidableEq, Repr

/-- Outcome of the key validation at the top of `idempotency`. -/
inductive KeyCheck where
  | missing
  | invalid
  | valid (k : String)
deriving DecidableEq, Repr

/-- Key validation: `!rawKey` (absent or empty string) rejects as
missing; otherwise the key is the string itself or the array's first
element, rejected as invalid when falsy or longer than 255. -/
def checkIdemKey : HeaderVal → KeyCheck
  | .absent => .missing
  | .str s =>
      if s = "" then .missing
      else if s.length > 255 then .invalid else .valid s
  | .arr l =>
      match l with
      | [] => .invalid
      | k :: _ =>
          if k = "" then .invalid
          else if k.length > 255 then .invalid else .valid k

/-- Actor resolution: `req.user?.id ?? req.userId ?? 'anonymous'`. -/
def actorOf (req : IdemRequest) : String :=
  ((req.user).orElse (fun _ => req.userId)).getD "anonymous"

/-- Cache key: `` `${userId}:${idempotencyKey}` ``. -/
def cacheKeyOf (req : IdemRequest) (k : String) : String :=
  actorOf req ++ ":" ++ k

/-- Rejection for a missing `Idempotency-Key` header. -/
def missingKeyResp : HandlerOut :=
  ⟨400, [], .err "MISSING_IDEMPOTENCY_KEY" "Idempotency-Key header is required"⟩

/-- Rejection for an out-of-range `Idempotency-Key` header. -/
def invalidKeyResp : HandlerOut :=
  ⟨400, [], .err "INVALID_IDEMPOTENCY_KEY" "Idempotency-Key must be between 1 and 255 characters"⟩

/-- Result of one pass through the middleware: the response sent, the
updated store, and whether the wrapped operation was invoked. -/
structure IdemResult where
  response : HandlerOut
  store : Store
  invoked : Bool
deriving DecidableEq, Repr

/-- The `idempotency` middleware, sequentially executed.  `handler` is
the wrapped operation's final outcome (status code, headers snapshot,
body), captured by the `res.json` interception; on a cache miss it is
invoked and its outcome cached under the cache key with the TTL. -/
def idempotency (s : Store) (now ttlMs : Nat) (req : IdemRequest)
    (handler : HandlerOut) : IdemResult :=
  match checkIdemKey req.key with
  | .missing => ⟨missingKeyResp, s, false⟩
  | .invalid => ⟨invalidKeyResp, s, false⟩
  | .valid k =>
      let ck := cacheKeyOf req k
      match get s now ck with
      | (some c, s') => ⟨⟨c.statusCode, c.headers, c.body⟩, s', false⟩
      | (none, s') =>
          let entry : CachedResponse :=
            ⟨handler.statusCode, handler.headers, handler.body, now + ttlMs⟩
          ⟨handler, set s' ck entry, true⟩

end ErrorMw

/-! ### Idempotency middleware variant
(`tec-payment-service/src/middlewares/idempotency.middleware.ts` with
its `InMemoryIdempotencyStore`, whose `set` is guarded). -/

namespace IdemMw

/-- Cached entry of this variant: status code and body only. -/
structure CachedResponse where
  statusCode : Nat
  body : RespBody
deriving DecidableEq, Repr

/-- A stored entry: the cached value and its expiry timestamp. -/
structure MemEntry where
  value : CachedResponse
  expiresAt : Nat
deriving DecidableEq, Repr

/-- The in-memory store: `Map<string, MemEntry>`. -/
abbrev Store := List (String × MemEntry)

/-- `InMemoryIdempotencyStore.get`: absent or expired entries yield
`none`; an expired entry is deleted. -/
def get (s : Store) (now : Nat) (key : String) : Option CachedResponse × Store :=
  match amGet s key with
  | none => (none, s)
  | some e =>
      if now > e.expiresAt then (none, amErase s key) else (some e.value, s)

/-- `InMemoryIdempotencyStore.set`: returns `false` without writing
when the key is already present (first write wins), else stores the
value with expiry `now + ttlMs` and returns `true`. -/
def set (s : Store) (key : String) (v : CachedResponse) (ttlMs now : Nat) :
    Bool × Store :=
  match amGet s key with
  | some _ => (false, s)
  | none => (true, amSet s key ⟨v, now + ttlMs⟩)

end IdemMw

/-! ### Rate limiter
(`tec-payment-service/src/middlewares/rate-limit.middleware.ts`:
`InMemoryStore.increment` and the middleware built by
`createRateLimiter`). -/

/-- One fixed window: accumulated hit count and reset timestamp. -/
structure RateEntry where
  count : Nat
  resetAt : Nat
deriving DecidableEq, Repr

/-- The in-memory rate-limit store: `Map<string, MemEntry>`. -/
abbrev RateStore := List (String × RateEntry)

/-- `InMemoryStore.increment`: start a fresh window with count 1 when
the key is unknown or the previous window has elapsed, otherwise bump
the count leaving `resetAt` untouched. -/
def increment (s : RateStore) (key : String) (windowMs now : Nat) :
    RateEntry × RateStore :=
  match amGet s key with
  | none =>
      let e : RateEntry := ⟨1, now + windowMs⟩
      (e, amSet s key e)
  | some e =>
      if now > e.resetAt then
        let e' : RateEntry := ⟨1, now + windowMs⟩
        (e', amSet s key e')
      else
        let e' : RateEntry := ⟨e.count + 1, e.resetAt⟩
        (e', amSet s key e')

/-- `Math.ceil(a / b)` on the nonnegative values that occur here. -/
def ceilDiv (a b : Nat) : Nat := (a + b - 1) / b

/-- Decision of the rate-limit middleware for one request. -/
inductive RateDecision where
  | allowed
  | rejected (code : String) (retryAfter : Nat)
deriving DecidableEq, Repr

/-- The middleware produced by `createRateLimiter maxRequests windowMs`,
applied to one request: increment the key's counter, then reject with
`RATE_LIMIT_EXCEEDED` and `Retry-After = ceil((resetAt − now)/1000)`
when the count exceeds the limit. -/
def createRateLimiter (maxRequests windowMs : Nat) (s : RateStore)
    (key : String) (now : Nat) : RateDecision × RateStore :=
  let r := increment s key windowMs now
  if r.1.count > maxRequests then
    (.rejected "RATE_LIMIT_EXCEEDED" (ceilDiv (r.1.resetAt - now) 1000), r.2)
  else
    (.allowed, r.2)

/-- A burst of hits on one key at the given timestamps. -/
def applyHits (s : RateStore) (key : String) (windowMs : Nat) (ts : List Nat) :
    RateStore :=
  ts.foldl (fun st t => (increment st key windowMs t).2) s

/-! ### Payment lifecycle state machine
(`tec-payment-service/src/services/payment.service.ts`:
`ALLOWED_TRANSITIONS`, `isTransitionAllowed`, and the controller
handlers `createPayment`, `approvePayment`, `completePayment`,
`cancelPayment`, `failPayment`).  The Prisma database is embedded as
an association list of payments by id plus the append-only
`payment_audit_logs` list; express-validator checks, timestamps and
request ids are outside the embedded fragment.  Amounts are embedded
as rationals. -/

/-- A row of the `payments` table (fields the handlers read/write). -/
structure Payment where
  id : String
  user_id : String
  amount : ℚ
  currency : String
  payment_method : String
  status : String
  pi_payment_id : Option String
deriving DecidableEq, Repr

/-- A row of `payment_audit_logs` as written by `createAuditLog`:
the acting user, the payment, the event type, and the from/to statuses
carried in the metadata of `INVALID_TRANSITION_ATTEMPT` events. -/
structure AuditRecord where
  userId : String
  paymentId : String
  eventType : String
  metaFrom : Option String
  metaTo : Option String
deriving DecidableEq, Repr

/-- Database state: payments by id and the append-only audit log. -/
structure PayState where
  payments : List (String × Payment)
  audits : List AuditRecord
deriving DecidableEq, Repr

/-- A handler's JSON response: success with the payment, or the error
envelope with its HTTP status and error code. -/
inductive PayResp where
  | ok (httpStatus : Nat) (p : Payment)
  | err (httpStatus : Nat) (code : String)
deriving DecidableEq, Repr

/-- `ALLOWED_TRANSITIONS`: source status ↦ permitted target statuses.
Only non-terminal statuses have entries. -/
def ALLOWED_TRANSITIONS : List (String × List String) :=
  [("created", ["approved", "cancelled", "failed"]),
   ("approved", ["completed", "cancelled", "failed"])]

/-- `isTransitionAllowed(from, to)`:
`(ALLOWED_TRANSITIONS[from] ?? []).includes(to)`. -/
def isTransitionAllowed (src tgt : String) : Bool :=
  ((amGet ALLOWED_TRANSITIONS src).getD []).contains tgt

/-- `createPayment`: persist a new payment with status `created`
(after the max-amount validation) and audit `PAYMENT_INITIATED`.
The database-generated id is passed in as `pid`. -/
def createPayment (st : PayState) (pid userId : String) (amount : ℚ)
    (currency : Option String) (method : String) (maxAmount : ℚ) :
    PayResp × PayState :=
  if amount > maxAmount then
    (.err 400 "VALIDATION_ERROR", st)
  else
    let p : Payment :=
      ⟨pid, userId, amount, currency.getD "PI", method, "created", none⟩
    (.ok 201 p,
     ⟨amSet st.payments pid p,
      st.audits ++ [⟨userId, pid, "PAYMENT_INITIATED", none, none⟩]⟩)

/-- `approvePayment`: look the payment up; when the transition to
`approved` is not allowed, audit `INVALID_TRANSITION_ATTEMPT` and
answer 409 `INVALID_STATUS`.  Otherwise, for a Pi payment with a
`pi_payment_id`, the external Pi approve call runs first — its failure
outcome, if any, is the `piErr` parameter — and on success the status
and `pi_payment_id` are written and `PAYMENT_APPROVED` audited. -/
def approvePayment (st : PayState) (pid : String)
    (piPaymentId : Option String) (piErr : Option (Nat × String)) :
    PayResp × PayState :=
  match amGet st.payments pid with
  | none => (.err 404 "NOT_FOUND", st)
  | some p =>
      if ¬ isTransitionAllowed p.status "approved" then
        (.err 409 "INVALID_STATUS",
         ⟨st.payments,
          st.audits ++
            [⟨p.user_id, pid, "INVALID_TRANSITION_ATTEMPT",
              some p.status, some "approved"⟩]⟩)
      else
        match
          (if p.payment_method = "pi" ∧ piPaymentId.isSome then piErr else none)
        with
        | some e => (.err e.1 e.2, st)
        | none =>
            let p' : Payment :=
              { p with
                  status := "approved",
                  pi_payment_id :=
                    match piPaymentId with
                    | some v => some v
                    | none => p.pi_payment_id }
            (.ok 200 p',
             ⟨amSet st.payments pid p',
              st.audits ++
                [⟨p.user_id, pid, "PAYMENT_APPROVED", none, none⟩]⟩)

/-- `completePayment`: a non-transactional pre-flight reads the payment
and validates the transition to `completed` (auditing and answering
409 `INVALID_STATUS` on failure); for Pi payments the external
complete call runs next (`piErr` is its failure outcome, if any);
finally the transaction re-reads, re-validates and commits status
`completed`, auditing `PAYMENT_CONFIRMED`.  The in-transaction
`INVALID_TRANSITION` throw is audited with the requester's id. -/
def completePayment (st : PayState) (pid : String)
    (_transactionId : Option String) (piErr : Option (Nat × String))
    (reqUserId : Option String) : PayResp × PayState :=
  match amGet st.payments pid with
  | none => (.err 404 "NOT_FOUND", st)
  | some pf =>
      if ¬ isTransitionAllowed pf.status "completed" then
        (.err 409 "INVALID_STATUS",
         ⟨st.payments,
          st.audits ++
            [⟨pf.user_id, pid, "INVALID_TRANSITION_ATTEMPT",
              some pf.status, some "completed"⟩]⟩)
      else
        match
          (if pf.payment_method = "pi" ∧ pf.pi_payment_id.isSome
           then piErr else none)
        with
        | some e => (.err e.1 e.2, st)
        | none =>
            match amGet st.payments pid with
            | none => (.err 404 "NOT_FOUND", st)
            | some p =>
                if ¬ isTransitionAllowed p.status "completed" then
                  (.err 409 "INVALID_STATUS",
                   ⟨st.payments,
                    st.audits ++
                      [⟨reqUserId.getD "unknown", pid,
                        "INVALID_TRANSITION_ATTEMPT",
                        some p.status, some "completed"⟩]⟩)
                else
                  let p' : Payment := { p with status := "completed" }
                  (.ok 200 p',
                   ⟨amSet st.payments pid p',
                    st.audits ++
                      [⟨p'.user_id, pid, "PAYMENT_CONFIRMED", none, none⟩]⟩)

/-- `cancelPayment`: inside the transaction, read the payment and
validate the transition to `cancelled`; the `INVALID_TRANSITION` throw
is audited with the requester's id and answered 409 `INVALID_STATUS`;
otherwise the status is written and `PAYMENT_CANCELLED` audited. -/
def cancelPayment (st : PayState) (pid : String) (reqUserId : Option String) :
    PayResp × PayState :=
  match amGet st.payments pid with
  | none => (.err 404 "NOT_FOUND", st)
  | some p =>
      if ¬ isTransitionAllowed p.status "cancelled" then
        (.err 409 "INVALID_STATUS",
         ⟨st.payments,
          st.audits ++
            [⟨reqUserId.getD "unknown", pid, "INVALID_TRANSITION_ATTEMPT",
              some p.status, some "cancelled"⟩]⟩)
      else
        let p' : Payment := { p with status := "cancelled" }
        (.ok 200 p',
         ⟨amSet st.payments pid p',
          st.audits ++ [⟨p'.user_id, pid, "PAYMENT_CANCELLED", none, none⟩]⟩)

/-- `failPayment`: read the payment and validate the transition to
`failed`, auditing the rejected attempt with the payment owner's id
and answering 409 `INVALID_STATUS`; otherwise write status `failed`
and audit `PAYMENT_FAILED`. -/
def failPayment (st : PayState) (pid : String) : PayResp × PayState :=
  match amGet st.payments pid with
  | none => (.err 404 "NOT_FOUND", st)
  | some p =>
      if ¬ isTransitionAllowed p.status "failed" then
        (.err 409 "INVALID_STATUS",
         ⟨st.payments,
          st.audits ++
            [⟨p.user_id, pid, "INVALID_TRANSITION_ATTEMPT",
              some p.status, some "failed"⟩]⟩)
      else
        let p' : Payment := { p with status := "failed" }
        (.ok 200 p',
         ⟨amSet st.payments pid p',
          st.audits ++ [⟨p'.user_id, pid, "PAYMENT_FAILED", none, none⟩]⟩)

/-! ### Wallet ledger -/

/-- A row of the `wallets` table (fields the withdraw logic reads). -/
structure Wallet where
  id : String
  balance : ℚ
deriving DecidableEq, Repr

/-- Outcome of a withdraw attempt: success, or the 422
`INSUFFICIENT_BALANCE` rejection. -/
inductive WithdrawResult where
  | ok (w : Wallet)
  | insufficientBalance
deriving DecidableEq, Repr

/-- Modelled from the spec: the wallet-service `withdraw` controller.
`tec-wallet-service/src/routes/wallet.routes.ts` and the security
integration tests import `withdraw` (and `deposit`/`transfer`) from
`wallet.controller.ts`, but the provided copy of that controller does
not contain their bodies.  Per the specification: inside one
transaction, read the wallet and verify `balance ≥ amount`; if not,
abort with `INSUFFICIENT_BALANCE` (HTTP 422 per the repository's
security tests) leaving the wallet untouched; otherwise decrement the
balance. -/
def withdraw (w : Wallet) (amount : ℚ) : WithdrawResult × Wallet :=
  if w.balance < amount then
    (.insufficientBalance, w)
  else
    let w' : Wallet := { w with balance := w.balance - amount }
    (.ok w', w')

/-- A sequence of withdraw attempts applied to one wallet. -/
def runWithdrawals (w : Wallet) (amounts : List ℚ) : Wallet :=
  amounts.foldl (fun wal a => (withdraw wal a).2) w

/-! ### Database schema
(`prisma/migrations` of the payment service and the wallet/account
migration among the sources): the SQL column types of the money
columns. -/

/-- SQL column types occurring in the migrations. -/
inductive SqlType where
  | text
  | doublePrecision
  | boolean
  | timestamp
  | jsonb
deriving DecidableEq, Repr

/-- Whether a column type stores IEEE-754 binary floating-point values
(`DOUBLE PRECISION`), as opposed to exact representations. -/
def SqlType.isBinaryFloat : SqlType → Bool
  | .doublePrecision => true
  | _ => false

/-- Columns of the `wallets` table from the wallet migration. -/
def walletsTable : List (String × SqlType) :=
  [("id", .text), ("user_id", .text), ("wallet_type", .text),
   ("wallet_address", .text), ("currency", .text),
   ("balance", .doublePrecision), ("is_primary", .boolean),
   ("created_at", .timestamp), ("updated_at", .timestamp)]

/-- Columns of the `transactions` table from the wallet migration. -/
def transactionsTable : List (String × SqlType) :=
  [("id", .text), ("wallet_id", .text), ("type", .text),
   ("amount", .doublePrecision), ("asset_type", .text),
   ("status", .text), ("description", .text), ("metadata", .jsonb),
   ("created_at", .timestamp), ("updated_at", .timestamp)]

/-- Columns of the `payments` table from the payment migration. -/
def paymentsTable : List (String × SqlType) :=
  [("id", .text), ("user_id", .text), ("amount", .doublePrecision),
   ("currency", .text), ("payment_method", .text), ("status", .text),
   ("pi_payment_id", .text), ("metadata", .jsonb),
   ("created_at", .timestamp), ("updated_at", .timestamp),
   ("approved_at", .timestamp), ("completed_at", .timestamp),
   ("failed_at", .timestamp), ("cancelled_at", .timestamp)]

/-! ### Shared lemmas about the idempotency middleware -/

/-- After a cache miss executed the wrapped operation at `t₁`, any
request carrying the same cache key at `t₂ ≤ t₁ + ttl` is a hit: it is
answered from the cache without invoking its own handler, byte for
byte the first response. -/
theorem idempotency_hit_after_miss
    (s : ErrorMw.Store) (t₁ t₂ ttl : Nat) (req₁ req₂ : ErrorMw.IdemRequest)
    (h₁ h₂ : HandlerOut) (k : String)
    (hk₁ : ErrorMw.checkIdemKey req₁.key = .valid k)
    (hk₂ : ErrorMw.checkIdemKey req₂.key = .valid k)
    (hck : ErrorMw.cacheKeyOf req₂ k = ErrorMw.cacheKeyOf req₁ k)
    (hfresh : amGet s (ErrorMw.cacheKeyOf req₁ k) = none)
    (httl : t₂ ≤ t₁ + ttl) :
    (ErrorMw.idempotency s t₁ ttl req₁ h₁).invoked = true ∧
    (ErrorMw.idempotency (ErrorMw.idempotency s t₁ ttl req₁ h₁).store
        t₂ ttl req₂ h₂).invoked = false ∧
    (ErrorMw.idempotency (ErrorMw.idempotency s t₁ ttl req₁ h₁).store
        t₂ ttl req₂ h₂).response
      = (ErrorMw.idempotency s t₁ ttl req₁ h₁).response := by
  have hr₁ : ErrorMw.idempotency s t₁ ttl req₁ h₁
      = ⟨h₁, ErrorMw.set s (ErrorMw.cacheKeyOf req₁ k)
              ⟨h₁.statusCode, h₁.headers, h₁.body, t₁ + ttl⟩, true⟩ := by
    simp [ErrorMw.idempotency, hk₁, ErrorMw.get, hfresh]
  have hget₂ : amGet (ErrorMw.set s (ErrorMw.cacheKeyOf req₁ k)
        (⟨h₁.statusCode, h₁.headers, h₁.body, t₁ + ttl⟩ : ErrorMw.CachedResponse))
        (ErrorMw.cacheKeyOf req₂ k)
      = some ⟨h₁.statusCode, h₁.headers, h₁.body, t₁ + ttl⟩ := by
    rw [hck]; exact amGet_amSet_self _ _ _
  have hnotexp : ¬ (t₁ + ttl < t₂) := Nat.not_lt.mpr httl
  rw [hr₁]
  refine ⟨rfl, ?_, ?_⟩ <;>
    simp [ErrorMw.idempotency, hk₂, ErrorMw.get, hget₂, hnotexp]

/-- Actor resolution degrades to the literal string `anonymous` when
the request carries no authenticated identity. -/
theorem actorOf_unauthenticated (req : ErrorMw.IdemRequest)
    (hu : req.user = none) (hv : req.userId = none) :
    ErrorMw.actorOf req = "anonymous" := by
  simp [ErrorMw.actorOf, hu, hv, Option.orElse]

/-- C1: for an idempotency key replayed within the TTL by the same
actor, the gate returns the cached response identical to the first
(status code, headers and body) without invoking the wrapped
operation a second time: it is invoked exactly once, on the first
request. -/
theorem idempotency_replays_cached_response
    (s : ErrorMw.Store) (t₁ t₂ ttl : Nat) (req : ErrorMw.IdemRequest)
    (h₁ h₂ : HandlerOut) (k : String)
    (hk : ErrorMw.checkIdemKey req.key = .valid k)
    (hfresh : amGet s (ErrorMw.cacheKeyOf req k) = none)
    (httl : t₂ ≤ t₁ + ttl) :
    (ErrorMw.idempotency s t₁ ttl req h₁).invoked = true ∧
    (ErrorMw.idempotency (ErrorMw.idempotency s t₁ ttl req h₁).store
        t₂ ttl req h₂).invoked = false ∧
    (ErrorMw.idempotency (ErrorMw.idempotency s t₁ ttl req h₁).store
        t₂ ttl req h₂).response
      = (ErrorMw.idempotency s t₁ ttl req h₁).response :=
  idempotency_hit_after_miss s t₁ t₂ ttl req req h₁ h₂ k hk hk rfl hfresh httl

/-- C1 witness: replay of key `K1` by user `u1` five milliseconds
after the original request within a 600000 ms TTL. -/
theorem idempotency_replays_cached_response_witness :
    (ErrorMw.idempotency [] 0 600000
        ⟨.str "K1", some "u1", none, "203.0.113.7"⟩
        ⟨201, [("content-type", "application/json")], .ok "created"⟩).invoked
      = true ∧
    (ErrorMw.idempotency
        (ErrorMw.idempotency [] 0 600000
          ⟨.str "K1", some "u1", none, "203.0.113.7"⟩
          ⟨201, [("content-type", "application/json")], .ok "created"⟩).store
        5 600000 ⟨.str "K1", some "u1", none, "203.0.113.7"⟩
        ⟨500, [], .err "INTERNAL_ERROR" "boom"⟩).invoked = false ∧
    (ErrorMw.idempotency
        (ErrorMw.idempotency [] 0 600000
          ⟨.str "K1", some "u1", none, "203.0.113.7"⟩
          ⟨201, [("content-type", "application/json")], .ok "created"⟩).store
        5 600000 ⟨.str "K1", some "u1", none, "203.0.113.7"⟩
        ⟨500, [], .err "INTERNAL_ERROR" "boom"⟩).response
      = (ErrorMw.idempotency [] 0 600000
          ⟨.str "K1", some "u1", none, "203.0.113.7"⟩
          ⟨201, [("content-type", "application/json")], .ok "created"⟩).response :=
  idempotency_replays_cached_response [] 0 5 600000
    ⟨.str "K1", some "u1", none, "203.0.113.7"⟩
    ⟨201, [("content-type", "application/json")], .ok "created"⟩
    ⟨500, [], .err "INTERNAL_ERROR" "boom"⟩ "K1"
    (by decide) rfl (by decide)

/-- C10: with no authenticated identity, the gate scopes the cache key
with the literal actor `anonymous`, so two distinct unauthenticated
callers presenting the same key within the TTL share one cache entry,
the second receiving the first caller's cached response without its
own handler running. -/
theorem anonymous_callers_share_cache_entry
    (s : ErrorMw.Store) (t₁ t₂ ttl : Nat) (req₁ req₂ : ErrorMw.IdemRequest)
    (h₁ h₂ : HandlerOut) (k : String)
    (hu₁ : req₁.user = none) (hv₁ : req₁.userId = none)
    (hu₂ : req₂.user = none) (hv₂ : req₂.userId = none)
    (hk₁ : ErrorMw.checkIdemKey req₁.key = .valid k)
    (hk₂ : ErrorMw.checkIdemKey req₂.key = .valid k)
    (_hcallers : req₁.ip ≠ req₂.ip)
    (hfresh : amGet s (ErrorMw.cacheKeyOf req₁ k) = none)
    (httl : t₂ ≤ t₁ + ttl) :
    ErrorMw.cacheKeyOf req₁ k = "anonymous" ++ ":" ++ k ∧
    ErrorMw.cacheKeyOf req₂ k = "anonymous" ++ ":" ++ k ∧
    (ErrorMw.idempotency (ErrorMw.idempotency s t₁ ttl req₁ h₁).store
        t₂ ttl req₂ h₂).invoked = false ∧
    (ErrorMw.idempotency (ErrorMw.idempotency s t₁ ttl req₁ h₁).store
        t₂ ttl req₂ h₂).response
      = (ErrorMw.idempotency s t₁ ttl req₁ h₁).response := by
  have ha₁ : ErrorMw.actorOf req₁ = "anonymous" :=
    actorOf_unauthenticated req₁ hu₁ hv₁
  have ha₂ : ErrorMw.actorOf req₂ = "anonymous" :=
    actorOf_unauthenticated req₂ hu₂ hv₂
  have hck₁ : ErrorMw.cacheKeyOf req₁ k = "anonymous" ++ ":" ++ k := by
    simp [ErrorMw.cacheKeyOf, ha₁]
  have hck₂ : ErrorMw.cacheKeyOf req₂ k = "anonymous" ++ ":" ++ k := by
    simp [ErrorMw.cacheKeyOf, ha₂]
  have hmain := idempotency_hit_after_miss s t₁ t₂ ttl req₁ req₂ h₁ h₂ k
    hk₁ hk₂ (hck₂.trans hck₁.symm) hfresh httl
  exact ⟨hck₁, hck₂, hmain.2.1, hmain.2.2⟩

/-- C10 witness: two unauthenticated callers at distinct network
origins replay key `K7` within the TTL. -/
theorem anonymous_callers_share_cache_entry_witness :
    ErrorMw.cacheKeyOf ⟨.str "K7", none, none, "198.51.100.1"⟩ "K7"
      = "anonymous" ++ ":" ++ "K7" ∧
    ErrorMw.cacheKeyOf ⟨.str "K7", none, none, "198.51.100.2"⟩ "K7"
      = "anonymous" ++ ":" ++ "K7" ∧
    (ErrorMw.idempotency
        (ErrorMw.idempotency [] 0 600000
          ⟨.str "K7", none, none, "198.51.100.1"⟩ ⟨201, [], .ok "a"⟩).store
        7 600000 ⟨.str "K7", none, none, "198.51.100.2"⟩
        ⟨403, [], .err "FORBIDDEN" "no"⟩).invoked = false ∧
    (ErrorMw.idempotency
        (ErrorMw.idempotency [] 0 600000
          ⟨.str "K7", none, none, "198.51.100.1"⟩ ⟨201, [], .ok "a"⟩).store
        7 600000 ⟨.str "K7", none, none, "198.51.100.2"⟩
        ⟨403, [], .err "FORBIDDEN" "no"⟩).response
      = (ErrorMw.idempotency [] 0 600000
          ⟨.str "K7", none, none, "198.51.100.1"⟩ ⟨201, [], .ok "a"⟩).response :=
  anonymous_callers_share_cache_entry [] 0 7 600000
    ⟨.str "K7", none, none, "198.51.100.1"⟩
    ⟨.str "K7", none, none, "198.51.100.2"⟩
    ⟨201, [], .ok "a"⟩ ⟨403, [], .err "FORBIDDEN" "no"⟩ "K7"
    rfl rfl rfl rfl (by decide) (by decide) (by decide) rfl (by decide)

/-- C8 amended: a missing or empty `Idempotency-Key` header is
rejected with `MISSING_IDEMPOTENCY_KEY`, and a supplied key longer
than 255 characters with `INVALID_IDEMPOTENCY_KEY`, in both cases
before the wrapped operation runs and without touching the store. -/
theorem idempotency_key_validation
    (s : ErrorMw.Store) (now ttl : Nat) (req : ErrorMw.IdemRequest)
    (h : HandlerOut) :
    ((req.key = .absent ∨ req.key = .str "") →
        ErrorMw.idempotency s now ttl req h
          = ⟨ErrorMw.missingKeyResp, s, false⟩) ∧
    (∀ key, req.key = .str key → key ≠ "" → 255 < key.length →
        ErrorMw.idempotency s now ttl req h
          = ⟨ErrorMw.invalidKeyResp, s, false⟩) := by
  constructor
  · rintro (hk | hk) <;> simp [ErrorMw.idempotency, ErrorMw.checkIdemKey, hk]
  · intro key hk hne hlen
    simp [ErrorMw.idempotency, ErrorMw.checkIdemKey, hk, hne, hlen]

set_option maxRecDepth 8192 in
/-- C8 witness: an absent header and a 256-character key are both
rejected before the handler runs. -/
theorem idempotency_key_validation_witness :
    ErrorMw.idempotency [] 0 600000 ⟨.absent, none, none, "ip"⟩
        ⟨200, [], .ok "d"⟩
      = ⟨ErrorMw.missingKeyResp, [], false⟩ ∧
    ErrorMw.idempotency [] 0 600000
        ⟨.str (String.mk (List.replicate 256 'a')), none, none, "ip"⟩
        ⟨200, [], .ok "d"⟩
      = ⟨ErrorMw.invalidKeyResp, [], false⟩ :=
  ⟨(idempotency_key_validation [] 0 600000 ⟨.absent, none, none, "ip"⟩
      ⟨200, [], .ok "d"⟩).1 (Or.inl rfl),
   (idempotency_key_validation [] 0 600000
      ⟨.str (String.mk (List.replicate 256 'a')), none, none, "ip"⟩
      ⟨200, [], .ok "d"⟩).2 (String.mk (List.replicate 256 'a')) rfl
      (by decide) (by decide)⟩

/-- C8 counterexample: an empty-string `Idempotency-Key` header has
length 0, outside 1–255, yet is rejected with
`MISSING_IDEMPOTENCY_KEY` rather than `INVALID_IDEMPOTENCY_KEY`. -/
theorem empty_key_reported_missing_not_invalid :
    (ErrorMw.idempotency [] 0 600000 ⟨.str "", none, none, "ip"⟩
        ⟨200, [], .ok "d"⟩).response = ErrorMw.missingKeyResp ∧
    ErrorMw.missingKeyResp.body ≠ ErrorMw.invalidKeyResp.body := by
  decide

/-- C5 counterexample: the in-memory store of `error.middleware.ts`
holds an unexpired value under key `k` (visible to `get` at time 0),
yet a subsequent `set` with a different value replaces it — last
writer wins, not first. -/
theorem errorMw_set_overwrites :
    (ErrorMw.get [("k", ⟨200, [], .ok "first", 1000⟩)] 0 "k").1
      = some ⟨200, [], .ok "first", 1000⟩ ∧
    ErrorMw.set [("k", ⟨200, [], .ok "first", 1000⟩)] "k"
        ⟨201, [], .ok "second", 1000⟩
      = [("k", ⟨201, [], .ok "second", 1000⟩)] ∧
    (⟨201, [], .ok "second", 1000⟩ : ErrorMw.CachedResponse)
      ≠ ⟨200, [], .ok "first", 1000⟩ := by
  decide

/-- C5 amended: the `idempotency.middleware.ts` in-memory store (and
the Redis `SET NX` backends) write set-if-absent: when the key is
already present, `set` reports `false` and leaves the store unchanged,
so the first writer wins there; the `error.middleware.ts` in-memory
store instead overwrites. -/
theorem idemMw_set_if_absent (s : IdemMw.Store) (key : String)
    (v : IdemMw.CachedResponse) (ttlMs now : Nat) (e : IdemMw.MemEntry)
    (h : amGet s key = some e) :
    IdemMw.set s key v ttlMs now = (false, s) := by
  simp [IdemMw.set, h]

/-- C5 witness: a second writer with a different value loses against
an existing entry. -/
theorem idemMw_set_if_absent_witness :
    IdemMw.set [("k", ⟨⟨200, .ok "first"⟩, 1000⟩)] "k" ⟨201, .ok "second"⟩
        600000 5
      = (false, [("k", ⟨⟨200, .ok "first"⟩, 1000⟩)]) :=
  idemMw_set_if_absent [("k", ⟨⟨200, .ok "first"⟩, 1000⟩)] "k"
    ⟨201, .ok "second"⟩ 600000 5 ⟨⟨200, .ok "first"⟩, 1000⟩ rfl

/-- C2: withdrawals that exceed the balance abort with
`INSUFFICIENT_BALANCE` leaving the wallet untouched, and under any
sequence of withdrawals a nonnegative balance never goes negative. -/
theorem withdraw_guards_balance :
    (∀ (w : Wallet) (a : ℚ), w.balance < a →
        withdraw w a = (.insufficientBalance, w)) ∧
    (∀ (w : Wallet) (amounts : List ℚ), 0 ≤ w.balance →
        0 ≤ (runWithdrawals w amounts).balance) := by
  constructor
  · intro w a h
    simp [withdraw, h]
  · intro w amounts
    induction amounts generalizing w with
    | nil => intro h; simpa [runWithdrawals] using h
    | cons a as ih =>
        intro h
        have hstep : 0 ≤ ((withdraw w a).2).balance := by
          by_cases hlt : w.balance < a
          · simpa [withdraw, hlt] using h
          · simpa [withdraw, hlt] using sub_nonneg.mpr (not_lt.mp hlt)
        simpa [runWithdrawals, List.foldl] using ih ((withdraw w a).2) hstep

/-- C2 witness: wallet `A` with balance 10 rejects a withdrawal of 100
keeping its balance, and a burst of withdrawals starting from balance
10 never drives the balance negative. -/
theorem withdraw_guards_balance_witness :
    withdraw ⟨"A", 10⟩ 100 = (.insufficientBalance, ⟨"A", 10⟩) ∧
    0 ≤ (runWithdrawals ⟨"A", 10⟩ [3, 4, 100, 5]).balance :=
  ⟨withdraw_guards_balance.1 ⟨"A", 10⟩ 100 (by norm_num),
   withdraw_guards_balance.2 ⟨"A", 10⟩ [3, 4, 100, 5] (by norm_num)⟩

/-! ### Rate limiter lemmas -/

/-- Incrementing one key never touches another key's window. -/
theorem amGet_increment_other (s : RateStore) (key k' : String)
    (w now : Nat) (h : k' ≠ key) :
    amGet (increment s key w now).2 k' = amGet s k' := by
  unfold increment
  cases hg : amGet s key with
  | none => simp [amGet_amSet_ne _ _ _ _ h]
  | some e =>
      by_cases hn : now > e.resetAt <;>
        simp [hn, amGet_amSet_ne _ _ _ _ h]

/-- A burst of in-window hits accumulates the count one by one,
leaving the window boundary untouched. -/
theorem applyHits_inWindow (key : String) (w : Nat) (ts : List Nat) :
    ∀ (s : RateStore) (c R : Nat), amGet s key = some ⟨c, R⟩ →
      (∀ t ∈ ts, t ≤ R) →
      amGet (applyHits s key w ts) key = some ⟨c + ts.length, R⟩ := by
  induction ts with
  | nil => intro s c R hg _; simpa [applyHits] using hg
  | cons t ts' ih =>
      intro s c R hg hts
      have hle : t ≤ R := hts t (List.mem_cons_self t ts')
      have hstep : (increment s key w t).2 = amSet s key ⟨c + 1, R⟩ := by
        simp [increment, hg, Nat.not_lt.mpr hle]
      have hget' : amGet (increment s key w t).2 key = some ⟨c + 1, R⟩ := by
        rw [hstep]; exact amGet_amSet_self _ _ _
      have htail : ∀ t' ∈ ts', t' ≤ R := fun t' ht' =>
        hts t' (List.mem_cons_of_mem t ht')
      have := ih (increment s key w t).2 (c + 1) R hget' htail
      simpa [applyHits, List.foldl, Nat.add_assoc, Nat.add_comm 1 ts'.length]
        using this

/-- A burst on one key never touches another key's window. -/
theorem applyHits_other (key k' : String) (w : Nat) (ts : List Nat)
    (h : k' ≠ key) :
    ∀ s : RateStore, amGet (applyHits s key w ts) k' = amGet s k' := by
  induction ts with
  | nil => intro s; simp [applyHits]
  | cons t ts' ih =>
      intro s
      have := ih (increment s key w t).2
      simpa [applyHits, List.foldl, amGet_increment_other _ _ _ _ _ h]
        using this

/-- Retry-after is the number computed by the middleware, positive
exactly when the window boundary is strictly in the future. -/
theorem ceilDiv_thousand_pos (a : Nat) (h : 0 < a) : 0 < ceilDiv a 1000 := by
  unfold ceilDiv
  omega

/-- First hit of an unknown key opens a fresh window at count 1. -/
theorem increment_fresh (s : RateStore) (key : String) (w now : Nat)
    (hg : amGet s key = none) :
    increment s key w now = (⟨1, now + w⟩, amSet s key ⟨1, now + w⟩) := by
  simp [increment, hg]

/-- First hit after the window elapsed resets the counter to 1. -/
theorem increment_reset (s : RateStore) (key : String) (w now c R : Nat)
    (hg : amGet s key = some ⟨c, R⟩) (hR : R < now) :
    increment s key w now = (⟨1, now + w⟩, amSet s key ⟨1, now + w⟩) := by
  simp [increment, hg, hR]

/-- A hit within the window only increments, keeping `resetAt`. -/
theorem increment_inWindow (s : RateStore) (key : String) (w now c R : Nat)
    (hg : amGet s key = some ⟨c, R⟩) (hR : now ≤ R) :
    increment s key w now = (⟨c + 1, R⟩, amSet s key ⟨c + 1, R⟩) := by
  simp [increment, hg, Nat.not_lt.mpr hR]

/-- C6 amended: `increment` starts a window at count 1 with
`resetAt = now + windowMs` on the first hit of a window (also on the
first hit after a window has elapsed) and only increments within the
window; the (limit+1)-th request within a window is rejected with
`RATE_LIMIT_EXCEEDED` carrying retry-after
`ceil((windowResetAt − now) / 1000)` seconds — strictly positive
whenever the rejection happens strictly before the boundary, and 0 at
the boundary instant itself; other keys are unaffected. -/
theorem rate_limiter_fixed_window :
    (∀ (s : RateStore) (key : String) (w now : Nat),
        amGet s key = none →
        increment s key w now = (⟨1, now + w⟩, amSet s key ⟨1, now + w⟩)) ∧
    (∀ (s : RateStore) (key : String) (w now c R : Nat),
        amGet s key = some ⟨c, R⟩ → R < now →
        increment s key w now = (⟨1, now + w⟩, amSet s key ⟨1, now + w⟩)) ∧
    (∀ (s : RateStore) (key : String) (w now c R : Nat),
        amGet s key = some ⟨c, R⟩ → now ≤ R →
        increment s key w now = (⟨c + 1, R⟩, amSet s key ⟨c + 1, R⟩)) ∧
    (∀ (limit w t₀ tf : Nat) (ts : List Nat) (s : RateStore) (key : String),
        amGet s key = none → (∀ t ∈ ts, t ≤ t₀ + w) →
        ts.length + 1 = limit → tf ≤ t₀ + w →
        (createRateLimiter limit w
            (applyHits (increment s key w t₀).2 key w ts) key tf).1
          = .rejected "RATE_LIMIT_EXCEEDED" (ceilDiv (t₀ + w - tf) 1000) ∧
        (tf < t₀ + w → 0 < ceilDiv (t₀ + w - tf) 1000)) ∧
    (∀ (limit w : Nat) (s : RateStore) (key k' : String) (now : Nat),
        k' ≠ key →
        amGet (createRateLimiter limit w s key now).2 k' = amGet s k') := by
  refine ⟨increment_fresh, increment_reset, increment_inWindow, ?_, ?_⟩
  · intro limit w t₀ tf ts s key hg hts hlen htf
    have hget₁ : amGet (increment s key w t₀).2 key = some ⟨1, t₀ + w⟩ := by
      rw [increment_fresh s key w t₀ hg]; exact amGet_amSet_self _ _ _
    have hget₂ : amGet (applyHits (increment s key w t₀).2 key w ts) key
        = some ⟨1 + ts.length, t₀ + w⟩ :=
      applyHits_inWindow key w ts _ 1 (t₀ + w) hget₁ hts
    have hcount : 1 + ts.length = limit := by omega
    rw [hcount] at hget₂
    have hinc := increment_inWindow
      (applyHits (increment s key w t₀).2 key w ts) key w tf limit (t₀ + w)
      hget₂ htf
    constructor
    · simp only [createRateLimiter, hinc]
      simp [Nat.lt_succ_self]
    · intro hstrict
      exact ceilDiv_thousand_pos _ (by omega)
  · intro limit w s key k' now h
    have hsnd : (createRateLimiter limit w s key now).2
        = (increment s key w now).2 := by
      unfold createRateLimiter
      by_cases hc : (increment s key w now).1.count > limit <;> simp [hc]
    rw [hsnd]
    exact amGet_increment_other s key k' w now h

/-- C6 witness: limit 2, window 1000 ms, key `k`: first hit at 0
starts the window at count 1, a second hit at 100 only increments, the
third hit at 200 is rejected with retry-after
`ceil((1000 − 200)/1000) = 1 > 0` second, and key `other` is untouched
throughout. -/
theorem rate_limiter_fixed_window_witness :
    increment [] "k" 1000 0 = (⟨1, 1000⟩, amSet [] "k" ⟨1, 1000⟩) ∧
    increment [("k", ⟨1, 1000⟩)] "k" 1000 100
      = (⟨2, 1000⟩, amSet [("k", ⟨1, 1000⟩)] "k" ⟨2, 1000⟩) ∧
    increment [("k", ⟨2, 1000⟩)] "k" 1000 1500
      = (⟨1, 2500⟩, amSet [("k", ⟨2, 1000⟩)] "k" ⟨1, 2500⟩) ∧
    (createRateLimiter 2 1000
        (applyHits (increment [] "k" 1000 0).2 "k" 1000 [100]) "k" 200).1
      = .rejected "RATE_LIMIT_EXCEEDED" (ceilDiv (0 + 1000 - 200) 1000) ∧
    0 < ceilDiv (0 + 1000 - 200) 1000 ∧
    amGet (createRateLimiter 2 1000 [("k", ⟨2, 1000⟩)] "k" 200).2 "other"
      = amGet [("k", ⟨2, 1000⟩)] "other" := by
  refine ⟨rate_limiter_fixed_window.1 [] "k" 1000 0 rfl,
    rate_limiter_fixed_window.2.2.1 [("k", ⟨1, 1000⟩)] "k" 1000 100 1 1000
      rfl (by decide),
    rate_limiter_fixed_window.2.1 [("k", ⟨2, 1000⟩)] "k" 1000 1500 2 1000
      rfl (by decide),
    (rate_limiter_fixed_window.2.2.2.1 2 1000 0 200 [100] [] "k" rfl
      (by decide) rfl (by decide)).1,
    (rate_limiter_fixed_window.2.2.2.1 2 1000 0 200 [100] [] "k" rfl
      (by decide) rfl (by decide)).2 (by decide),
    rate_limiter_fixed_window.2.2.2.2 2 1000 [("k", ⟨2, 1000⟩)] "k" "other"
      200 (by decide)⟩

/-- C6 counterexample: with limit 2 and a 1000 ms window opened at
time 0, the third request arriving exactly at the boundary instant
1000 is still within the window (the counter is not reset) and is
rejected — but with retry-after 0, not a strictly positive value. -/
theorem rate_limiter_retry_after_zero :
    (createRateLimiter 2 1000
        (applyHits (increment [] "k" 1000 0).2 "k" 1000 [0]) "k" 1000).1
      = .rejected "RATE_LIMIT_EXCEEDED" 0 := by
  decide

/-! ### Payment lifecycle scenario (claim C3) -/

/-- State after creating payment `p1` of 10.50 USD for user `u1`. -/
def c3State0 : PayState :=
  (createPayment ⟨[], []⟩ "p1" "u1" (mkRat 21 2) (some "USD") "wallet" 1000000).2

/-- State after additionally approving payment `p1`. -/
def c3State1 : PayState := (approvePayment c3State0 "p1" none none).2

/-- State after additionally completing payment `p1`. -/
def c3State2 : PayState :=
  (completePayment c3State1 "p1" (some "tx1") none (some "u1")).2

/-- C3 counterexample: the freshly created payment has status
`created`, and confirming it directly — without an approval — is
rejected with HTTP 409 (the `INVALID_TRANSITION` guard, surfaced as
error code `INVALID_STATUS`), not accepted as the claim states. -/
theorem confirm_from_created_rejected :
    (amGet c3State0.payments "p1").map Payment.status = some "created" ∧
    (completePayment c3State0 "p1" (some "tx1") none (some "u1")).1
      = .err 409 "INVALID_STATUS" := by
  decide

/-- C3 amended: a payment created with amount 10.50 has status
`created`; confirming it directly is rejected by the transition guard
(HTTP 409, error code `INVALID_STATUS`); after approval, confirm
succeeds, moving it to `completed` with the amount still 10.50; a
second confirm is rejected by the same guard and audited as
`INVALID_TRANSITION_ATTEMPT`. -/
theorem payment_confirm_scenario :
    (amGet c3State0.payments "p1").map Payment.status = some "created" ∧
    (amGet c3State0.payments "p1").map Payment.amount = some (mkRat 21 2) ∧
    (completePayment c3State0 "p1" (some "tx1") none (some "u1")).1
      = .err 409 "INVALID_STATUS" ∧
    (approvePayment c3State0 "p1" none none).1
      = .ok 200 ⟨"p1", "u1", mkRat 21 2, "USD", "wallet", "approved", none⟩ ∧
    (completePayment c3State1 "p1" (some "tx1") none (some "u1")).1
      = .ok 200 ⟨"p1", "u1", mkRat 21 2, "USD", "wallet", "completed", none⟩ ∧
    (completePayment c3State2 "p1" (some "tx1") none (some "u1")).1
      = .err 409 "INVALID_STATUS" ∧
    (completePayment c3State2 "p1" (some "tx1") none (some "u1")).2.audits
      = c3State2.audits ++
        [⟨"u1", "p1", "INVALID_TRANSITION_ATTEMPT",
          some "completed", some "completed"⟩] := by
  decide

/-! ### Invalid transitions (claim C4) -/

/-- C4 amended: for every source status from which the attempted
target is not reachable in `ALLOWED_TRANSITIONS`, each of the four
transition handlers rejects with HTTP 409 and error code
`INVALID_STATUS` (the guard internally tagged `INVALID_TRANSITION`),
leaves the payments untouched, and appends exactly one audit record
`INVALID_TRANSITION_ATTEMPT` carrying the from/to statuses and an
acting user id. -/
theorem invalid_transition_rejected_and_audited
    (st : PayState) (pid : String) (p : Payment)
    (piArg : Option String) (piErr : Option (Nat × String))
    (tid ruid : Option String)
    (hp : amGet st.payments pid = some p) :
    (isTransitionAllowed p.status "approved" = false →
        approvePayment st pid piArg piErr
          = (.err 409 "INVALID_STATUS",
             ⟨st.payments,
              st.audits ++
                [⟨p.user_id, pid, "INVALID_TRANSITION_ATTEMPT",
                  some p.status, some "approved"⟩]⟩)) ∧
    (isTransitionAllowed p.status "completed" = false →
        completePayment st pid tid piErr ruid
          = (.err 409 "INVALID_STATUS",
             ⟨st.payments,
              st.audits ++
                [⟨p.user_id, pid, "INVALID_TRANSITION_ATTEMPT",
                  some p.status, some "completed"⟩]⟩)) ∧
    (isTransitionAllowed p.status "cancelled" = false →
        cancelPayment st pid ruid
          = (.err 409 "INVALID_STATUS",
             ⟨st.payments,
              st.audits ++
                [⟨ruid.getD "unknown", pid, "INVALID_TRANSITION_ATTEMPT",
                  some p.status, some "cancelled"⟩]⟩)) ∧
    (isTransitionAllowed p.status "failed" = false →
        failPayment st pid
          = (.err 409 "INVALID_STATUS",
             ⟨st.payments,
              st.audits ++
                [⟨p.user_id, pid, "INVALID_TRANSITION_ATTEMPT",
                  some p.status, some "failed"⟩]⟩)) := by
  refine ⟨?_, ?_, ?_, ?_⟩ <;> intro h
  · simp [approvePayment, hp, h]
  · simp [completePayment, hp, h]
  · simp [cancelPayment, hp, h]
  · simp [failPayment, hp, h]

/-- C4 witness: approving a completed Pi payment is rejected with 409
`INVALID_STATUS` and exactly one audit record of the attempt. -/
theorem invalid_transition_rejected_and_audited_witness :
    approvePayment
        ⟨[("p9", ⟨"p9", "u9", 5, "PI", "pi", "completed", some "pi_9"⟩)], []⟩
        "p9" none none
      = (.err 409 "INVALID_STATUS",
         ⟨[("p9", ⟨"p9", "u9", 5, "PI", "pi", "completed", some "pi_9"⟩)],
          [⟨"u9", "p9", "INVALID_TRANSITION_ATTEMPT",
            some "completed", some "approved"⟩]⟩) :=
  (invalid_transition_rejected_and_audited
    ⟨[("p9", ⟨"p9", "u9", 5, "PI", "pi", "completed", some "pi_9"⟩)], []⟩
    "p9" ⟨"p9", "u9", 5, "PI", "pi", "completed", some "pi_9"⟩
    none none none none rfl).1 (by decide)

/-- C4 counterexample: the rejection's client-visible error code is
`INVALID_STATUS`, not `INVALID_TRANSITION` as the claim states. -/
theorem invalid_transition_error_code_mismatch :
    (approvePayment
        ⟨[("p9", ⟨"p9", "u9", 5, "PI", "pi", "completed", some "pi_9"⟩)], []⟩
        "p9" none none).1
      = .err 409 "INVALID_STATUS" ∧
    (PayResp.err 409 "INVALID_STATUS") ≠ .err 409 "INVALID_TRANSITION" := by
  decide

/-! ### Terminal states (claim C7) -/

/-- C7: the terminal statuses `completed`, `cancelled` and `failed`
have no outgoing transitions: every target is refused by the guard
table, and each of the approve/complete/cancel/fail handlers rejects
with 409 `INVALID_STATUS` leaving the payments unchanged. -/
theorem terminal_states_have_no_transitions
    (st : PayState) (pid : String) (p : Payment)
    (piArg : Option String) (piErr : Option (Nat × String))
    (tid ruid : Option String)
    (hp : amGet st.payments pid = some p)
    (hterm : p.status = "completed" ∨ p.status = "cancelled" ∨
             p.status = "failed") :
    (∀ tgt, isTransitionAllowed p.status tgt = false) ∧
    (approvePayment st pid piArg piErr).1 = .err 409 "INVALID_STATUS" ∧
    (approvePayment st pid piArg piErr).2.payments = st.payments ∧
    (completePayment st pid tid piErr ruid).1 = .err 409 "INVALID_STATUS" ∧
    (completePayment st pid tid piErr ruid).2.payments = st.payments ∧
    (cancelPayment st pid ruid).1 = .err 409 "INVALID_STATUS" ∧
    (cancelPayment st pid ruid).2.payments = st.payments ∧
    (failPayment st pid).1 = .err 409 "INVALID_STATUS" ∧
    (failPayment st pid).2.payments = st.payments := by
  have hall : ∀ tgt, isTransitionAllowed p.status tgt = false := by
    rcases hterm with h | h | h <;> rw [h] <;> exact fun tgt => rfl
  refine ⟨hall, ?_, ?_, ?_, ?_, ?_, ?_, ?_, ?_⟩ <;>
    simp [approvePayment, completePayment, cancelPayment, failPayment,
      hp, hall]

/-- C7 witness: a cancelled payment refuses all four operations and
keeps its row. -/
theorem terminal_states_have_no_transitions_witness :
    (∀ tgt, isTransitionAllowed "cancelled" tgt = false) ∧
    (approvePayment
        ⟨[("p5", ⟨"p5", "u5", 7, "PI", "card", "cancelled", none⟩)], []⟩
        "p5" none none).1 = .err 409 "INVALID_STATUS" ∧
    (approvePayment
        ⟨[("p5", ⟨"p5", "u5", 7, "PI", "card", "cancelled", none⟩)], []⟩
        "p5" none none).2.payments
      = [("p5", ⟨"p5", "u5", 7, "PI", "card", "cancelled", none⟩)] ∧
    (completePayment
        ⟨[("p5", ⟨"p5", "u5", 7, "PI", "card", "cancelled", none⟩)], []⟩
        "p5" none none none).1 = .err 409 "INVALID_STATUS" ∧
    (completePayment
        ⟨[("p5", ⟨"p5", "u5", 7, "PI", "card", "cancelled", none⟩)], []⟩
        "p5" none none none).2.payments
      = [("p5", ⟨"p5", "u5", 7, "PI", "card", "cancelled", none⟩)] ∧
    (cancelPayment
        ⟨[("p5", ⟨"p5", "u5", 7, "PI", "card", "cancelled", none⟩)], []⟩
        "p5" none).1 = .err 409 "INVALID_STATUS" ∧
    (cancelPayment
        ⟨[("p5", ⟨"p5", "u5", 7, "PI", "card", "cancelled", none⟩)], []⟩
        "p5" none).2.payments
      = [("p5", ⟨"p5", "u5", 7, "PI", "card", "cancelled", none⟩)] ∧
    (failPayment
        ⟨[("p5", ⟨"p5", "u5", 7, "PI", "card", "cancelled", none⟩)], []⟩
        "p5").1 = .err 409 "INVALID_STATUS" ∧
    (failPayment
        ⟨[("p5", ⟨"p5", "u5", 7, "PI", "card", "cancelled", none⟩)], []⟩
        "p5").2.payments
      = [("p5", ⟨"p5", "u5", 7, "PI", "card", "cancelled", none⟩)] :=
  terminal_states_have_no_transitions
    ⟨[("p5", ⟨"p5", "u5", 7, "PI", "card", "cancelled", none⟩)], []⟩
    "p5" ⟨"p5", "u5", 7, "PI", "card", "cancelled", none⟩
    none none none none rfl (Or.inr (Or.inl rfl))

/-! ### Money column types (claim C9) -/

/-- C9: the schema stores the money columns — `wallets.balance`,
`transactions.amount` and `payments.amount` — as `DOUBLE PRECISION`,
an IEEE-754 binary floating-point type, contradicting the requirement
that money never be held in binary floating point. -/
theorem money_columns_are_binary_floats :
    (amGet walletsTable "balance").map SqlType.isBinaryFloat = some true ∧
    (amGet transactionsTable "amount").map SqlType.isBinaryFloat
      = some true ∧
    (amGet paymentsTable "amount").map SqlType.isBinaryFloat = some true := by
  decide
